import Mathlib

/-!
Shallow embedding of `wiki.py` (a Wikipedia CLI dispatcher/formatter) and of
the argparse surface it uses, together with proofs of the specification
claims about it.

Modelling conventions:
* The external `wikipedia` library is a parameter: a `Client` record whose
  operations either return a value (`Except.ok`) or raise a Python
  exception (`Except.error`).
* Python exceptions relevant to the program are the `Exc` inductive.
  `PageError` and `DisambiguationError` are subclasses of
  `WikipediaException` in the library; `ValueError` is not.
* Each `print(...)` in the source appends one string to an output list.
  Colorama color constants (`Fore.*`, `Style.RESET_ALL`) are elided, since
  the spec's templates are stated "modulo color codes"; a `print` consisting
  only of a reset code becomes the empty string.
* A function's observable behaviour is an `Effect`: the ordered list of
  client calls it made, the lines it printed, and the exception it let
  propagate (if any).
-/

/-- Python exceptions distinguished by `wiki.py`.  `pageError`,
`disambiguationError` and `wikipediaException` correspond to
`wikipedia.exceptions.PageError`, `wikipedia.exceptions.DisambiguationError`
and any other subclass of `wikipedia.exceptions.WikipediaException`;
`valueError` is Python's builtin `ValueError`, which is not a
`WikipediaException`.  Each carries its `str(e)` message. -/
inductive Exc where
  | pageError (msg : String)
  | disambiguationError (options : List String) (msg : String)
  | wikipediaException (msg : String)
  | valueError (msg : String)
deriving DecidableEq, Repr

/-- `str(e)` for an exception. -/
def Exc.message : Exc → String
  | .pageError m => m
  | .disambiguationError _ m => m
  | .wikipediaException m => m
  | .valueError m => m

/-- Whether the exception is an instance of
`wikipedia.exceptions.WikipediaException` (Python class hierarchy:
`PageError` and `DisambiguationError` are subclasses of it). -/
def Exc.isWikipediaException : Exc → Bool
  | .pageError _ => true
  | .disambiguationError _ _ => true
  | .wikipediaException _ => true
  | .valueError _ => false

/-- Whether the exception is an instance of Python's builtin `ValueError`. -/
def Exc.isValueError : Exc → Bool
  | .valueError _ => true
  | _ => false

/-- The exception classes named by the `except` clauses of `get_summary` and
`get_full_content`: `PageError` and `DisambiguationError` only. -/
def Exc.caughtByFetch : Exc → Bool
  | .pageError _ => true
  | .disambiguationError _ _ => true
  | _ => false

/-- A `wikipedia.page(...)` result object, restricted to the two attributes
the program reads. -/
structure Page where
  title : String
  content : String
deriving DecidableEq, Repr

/-- The external `wikipedia` client for a single invocation: each operation
either returns (`ok`) or raises (`error`).  `summary` takes the `sentences`
argument, `search` the `results` argument. -/
structure Client where
  summary : String → Nat → Except Exc String
  page : String → Except Exc Page
  search : String → Nat → Except Exc (List String)
  set_lang : String → Except Exc Unit

/-- One call made on the external client, with its arguments. -/
inductive Call where
  | setLang (code : String)
  | summary (name : String) (sentences : Nat)
  | page (name : String)
  | search (query : String) (results : Nat)
deriving DecidableEq, Repr

/-- Whether a call is a language-selection call (as opposed to a fetch). -/
def Call.isSetLang : Call → Bool
  | .setLang _ => true
  | _ => false

/-- Observable behaviour of running a piece of the program: the client calls
made (in order), the lines printed (in order, color codes elided), and the
exception that propagated out, if any. -/
structure Effect where
  calls : List Call
  output : List String
  raised : Option Exc
deriving DecidableEq, Repr

/-- `"=" * 50`. -/
def eqLine : String := String.mk (List.replicate 50 (Char.ofNat 61))

/-- Python `str.capitalize` restricted to ASCII: the first character is
uppercased and every other character is lowercased. -/
def pyCapitalize (s : String) : String :=
  match s.data with
  | [] => ""
  | c :: cs => String.mk (c.toUpper :: cs.map Char.toLower)

/-- Python truthiness of an `Optional[str]`: `None` and `""` are falsy. -/
def pyTruthy : Option String → Bool
  | none => false
  | some s => s ≠ ""

/-- `get_summary(name)` from `wiki.py`: fetch `wikipedia.summary(name,
sentences=5)`; print header plus text on success, the not-found message on
`PageError`, the two disambiguation lines (first five options) on
`DisambiguationError`; any other exception propagates. -/
def get_summary (client : Client) (name : String) : Effect :=
  match client.summary name 5 with
  | .ok text =>
      { calls := [.summary name 5]
        output := ["\n" ++ eqLine,
                   "  ✨ Wikipedia Summary for: " ++ pyCapitalize name ++ " ✨",
                   eqLine ++ "\n",
                   text,
                   ""]
        raised := none }
  | .error (.pageError _) =>
      { calls := [.summary name 5]
        output := ["\nError: Page '" ++ name ++ "' not found on Wikipedia."]
        raised := none }
  | .error (.disambiguationError options _) =>
      { calls := [.summary name 5]
        output := ["\nDisambiguation: '" ++ name ++ "' may refer to multiple topics. Please be more specific.",
                   "Did you mean one of these? " ++ String.intercalate ", " (options.take 5)]
        raised := none }
  | .error e =>
      { calls := [.summary name 5], output := [], raised := some e }

/-- `get_full_content(name)` from `wiki.py`: fetch `wikipedia.page(name)`;
print header with the page's resolved title plus its content on success,
with the same `PageError` / `DisambiguationError` handlers as
`get_summary`; any other exception propagates. -/
def get_full_content (client : Client) (name : String) : Effect :=
  match client.page name with
  | .ok page =>
      { calls := [.page name]
        output := ["\n" ++ eqLine,
                   "  📚 Full Content for: " ++ page.title ++ " 📚",
                   eqLine ++ "\n",
                   page.content,
                   ""]
        raised := none }
  | .error (.pageError _) =>
      { calls := [.page name]
        output := ["\nError: Page '" ++ name ++ "' not found on Wikipedia."]
        raised := none }
  | .error (.disambiguationError options _) =>
      { calls := [.page name]
        output := ["\nDisambiguation: '" ++ name ++ "' may refer to multiple topics. Please be more specific.",
                   "Did you mean one of these? " ++ String.intercalate ", " (options.take 5)]
        raised := none }
  | .error e =>
      { calls := [.page name], output := [], raised := some e }

/-- `get_results(query)` from `wiki.py`: fetch `wikipedia.search(query,
results=5)`; print header plus one `--- ` line per result if non-empty, the
no-results message if empty, and the search-error message on any
`WikipediaException`; a non-`WikipediaException` propagates. -/
def get_results (client : Client) (query : String) : Effect :=
  match client.search query 5 with
  | .ok results =>
      if results ≠ [] then
        { calls := [.search query 5]
          output := ["\n" ++ eqLine,
                     "  🔍 Search results for: " ++ pyCapitalize query ++ " 🔍",
                     eqLine ++ "\n"] ++ results.map (fun r => "--- " ++ r)
          raised := none }
      else
        { calls := [.search query 5]
          output := ["\nNo results found for '" ++ query ++ "'."]
          raised := none }
  | .error e =>
      if e.isWikipediaException then
        { calls := [.search query 5]
          output := ["\nAn error occurred during search: " ++ e.message]
          raised := none }
      else
        { calls := [.search query 5], output := [], raised := some e }

/-- The parsed argparse namespace of `wiki.py`'s `main`. -/
structure Args where
  lang : String
  full : Bool
  search : Option String
  name : Option String
deriving DecidableEq, Repr

/-- The command line as given: which flags were supplied and with what
values (`none` = flag absent). -/
structure CmdLine where
  lang : Option String
  full : Bool
  search : Option String
  name : Option String
deriving DecidableEq, Repr

/-- argparse with `-l` defaulting to `"en"` and `-s`/`-n` in a required
mutually exclusive group: supplying both or neither makes the parser error
out with `SystemExit(2)` (the exit code is the `Except.error` value);
otherwise parsing succeeds, empty string values included. -/
def parse_args (c : CmdLine) : Except Nat Args :=
  if c.search.isSome ∧ c.name.isSome then .error 2
  else if c.search.isNone ∧ c.name.isNone then .error 2
  else .ok { lang := c.lang.getD "en", full := c.full, search := c.search, name := c.name }

/-- Stands for the text written by `parser.print_help()`: it is generated by
the external argparse library from the declared flags and is treated here as
an uninterpreted constant. -/
def parserHelpText : String :=
  "usage: wiki.py [-h] [-l LANG] [-f] (-s SEARCH | -n NAME)"

/-- The misuse message printed when `--full` is given but neither a truthy
name nor a truthy search query is available. -/
def fullMisuseMsg : String :=
  "\nError: The '--full' flag must be used with a topic name using '-n'."

/-- The message printed when `wikipedia.set_lang` raises a `ValueError`. -/
def langErrMsg (code : String) : String :=
  "\nError: The language code '" ++ code ++ "' is not supported. Using English ('en') instead."

/-- The `if args.name / elif args.search / elif args.full` dispatch at the
end of `main`, after language selection. -/
def dispatch (client : Client) (args : Args) : Effect :=
  if pyTruthy args.name then
    if args.full then get_full_content client (args.name.getD "")
    else get_summary client (args.name.getD "")
  else if pyTruthy args.search then
    get_results client (args.search.getD "")
  else if args.full then
    { calls := [], output := [fullMisuseMsg, parserHelpText], raised := none }
  else
    { calls := [], output := [], raised := none }

/-- `main` after argument parsing: `wikipedia.set_lang(args.lang)` inside a
`try` that catches only `ValueError` (printing the unsupported-language
message and then calling `wikipedia.set_lang("en")`, itself unprotected),
followed by the dispatch.  Any non-`ValueError` from the first `set_lang`,
and any exception from the fallback `set_lang("en")`, propagates. -/
def main' (client : Client) (args : Args) : Effect :=
  match client.set_lang args.lang with
  | .ok _ =>
      let d := dispatch client args
      { calls := .setLang args.lang :: d.calls, output := d.output, raised := d.raised }
  | .error e =>
      if e.isValueError then
        match client.set_lang "en" with
        | .ok _ =>
            let d := dispatch client args
            { calls := [.setLang args.lang, .setLang "en"] ++ d.calls
              output := langErrMsg args.lang :: d.output
              raised := d.raised }
        | .error e2 =>
            { calls := [.setLang args.lang, .setLang "en"]
              output := [langErrMsg args.lang]
              raised := some e2 }
      else
        { calls := [.setLang args.lang], output := [], raised := some e }

/-- The whole program for a given command line: parse (possibly exiting with
code 2), then run `main`. -/
def program (client : Client) (c : CmdLine) : Except Nat Effect :=
  (parse_args c).map (main' client)

/-- Whether the character list `pat` occurs contiguously inside `l`. -/
def occursIn (pat : List Char) : List Char → Bool
  | [] => pat.isEmpty
  | c :: rest => pat.isPrefixOf (c :: rest) || occursIn pat rest

/-- Whether string `pat` occurs as a substring of `s`. -/
def strContains (s pat : String) : Bool := occursIn pat.data s.data

/-! ## Helper lemmas -/

theorem get_summary_calls (client : Client) (n : String) :
    (get_summary client n).calls = [Call.summary n 5] := by
  unfold get_summary
  split <;> rfl

theorem get_full_content_calls (client : Client) (n : String) :
    (get_full_content client n).calls = [Call.page n] := by
  unfold get_full_content
  split <;> rfl

theorem get_results_calls (client : Client) (q : String) :
    (get_results client q).calls = [Call.search q 5] := by
  unfold get_results
  split <;> split <;> rfl

theorem dispatch_no_setLang (client : Client) (args : Args) :
    ∀ c ∈ (dispatch client args).calls, c.isSetLang = false := by
  intro c hc
  unfold dispatch at hc
  split at hc
  · split at hc
    · rw [get_full_content_calls] at hc
      simp at hc; subst hc; rfl
    · rw [get_summary_calls] at hc
      simp at hc; subst hc; rfl
  · split at hc
    · rw [get_results_calls] at hc
      simp at hc; subst hc; rfl
    · split at hc <;> simp at hc

/-! ## Concrete clients used to instantiate the theorems -/

/-- A client whose every fetch raises a generic `WikipediaException`
(e.g. an HTTP timeout) and whose `set_lang` succeeds. -/
def timeoutClient : Client where
  summary := fun _ _ => .error (.wikipediaException "timeout")
  page := fun _ => .error (.wikipediaException "timeout")
  search := fun _ _ => .error (.wikipediaException "timeout")
  set_lang := fun _ => .ok ()

/-- A client on which every operation succeeds. -/
def plainClient : Client where
  summary := fun _ _ => .ok "Python is a programming language."
  page := fun _ => .ok ⟨"Test Page", "This is the full content of the test page."⟩
  search := fun _ _ => .ok ["Biology", "Chemistry"]
  set_lang := fun _ => .ok ()

/-- The client behaviour mocked by
`test_wiki.py::test_main_unsupported_language`: `set_lang` raises
`WikipediaException("Unsupported language")` (which is not a `ValueError`). -/
def unsupportedLangClient : Client where
  summary := fun _ _ => .ok "Python is a programming language."
  page := fun _ => .ok ⟨"Test Page", "This is the full content of the test page."⟩
  search := fun _ _ => .ok []
  set_lang := fun _ => .error (.wikipediaException "Unsupported language")

/-- A client whose lookups raise a `DisambiguationError` with seven
candidate titles and whose search returns no results. -/
def disambClient : Client where
  summary := fun _ _ =>
    .error (.disambiguationError ["A", "B", "C", "D", "E", "F", "G"] "dis")
  page := fun _ =>
    .error (.disambiguationError ["A", "B", "C", "D", "E", "F", "G"] "dis")
  search := fun _ _ => .ok []
  set_lang := fun _ => .ok ()

/-- A client whose search raises a generic `WikipediaException("bar")`. -/
def failingSearchClient : Client where
  summary := fun _ _ => .ok "s"
  page := fun _ => .ok ⟨"T", "C"⟩
  search := fun _ _ => .error (.wikipediaException "bar")
  set_lang := fun _ => .ok ()

/-! ## Claim C1 -/

/-- C1 counterexample: on a client whose summary/page retrieval raises a
generic `WikipediaException` (not a `PageError` or `DisambiguationError`),
both `get_summary` and `get_full_content` let the client exception
propagate to their caller, contradicting the claim that no client exception
propagates out of the fetch dispatchers. -/
theorem c1_counterexample :
    (get_summary timeoutClient "Python").raised = some (Exc.wikipediaException "timeout")
    ∧ (get_full_content timeoutClient "Python").raised
        = some (Exc.wikipediaException "timeout") :=
  ⟨rfl, rfl⟩

/-- C1 (amended): `get_results` converts every client failure that is a
`WikipediaException` into a printed message, but `get_summary` and
`get_full_content` catch only `PageError` and `DisambiguationError`; any
other client exception propagates to their caller unchanged. -/
theorem c1_amended (client : Client) (name topic q : String) (e : Exc) :
    (client.search q 5 = .error e → e.isWikipediaException = true →
      (get_results client q).raised = none)
    ∧ (client.summary name 5 = .error e →
      (get_summary client name).raised = if e.caughtByFetch then none else some e)
    ∧ (client.page topic = .error e →
      (get_full_content client topic).raised = if e.caughtByFetch then none else some e) := by
  refine ⟨?_, ?_, ?_⟩
  · intro h hw
    unfold get_results
    rw [h]
    simp [hw]
  · intro h
    unfold get_summary
    rw [h]
    cases e <;> simp [Exc.caughtByFetch]
  · intro h
    unfold get_full_content
    rw [h]
    cases e <;> simp [Exc.caughtByFetch]

/-- Witness for C1 (amended) at the concrete clients `timeoutClient` (whose
failures are generic `WikipediaException`s). -/
theorem c1_amended_witness :
    (timeoutClient.search "science" 5 = .error (Exc.wikipediaException "timeout"))
    ∧ (Exc.wikipediaException "timeout").isWikipediaException = true
    ∧ (get_results timeoutClient "science").raised = none
    ∧ (timeoutClient.summary "Python" 5 = .error (Exc.wikipediaException "timeout"))
    ∧ (get_summary timeoutClient "Python").raised
        = (if (Exc.wikipediaException "timeout").caughtByFetch then none
           else some (Exc.wikipediaException "timeout"))
    ∧ (timeoutClient.page "Python" = .error (Exc.wikipediaException "timeout"))
    ∧ (get_full_content timeoutClient "Python").raised
        = (if (Exc.wikipediaException "timeout").caughtByFetch then none
           else some (Exc.wikipediaException "timeout")) :=
  ⟨rfl, rfl,
   (c1_amended timeoutClient "Python" "Python" "science" (Exc.wikipediaException "timeout")).1 rfl rfl,
   rfl,
   (c1_amended timeoutClient "Python" "Python" "science" (Exc.wikipediaException "timeout")).2.1 rfl,
   rfl,
   (c1_amended timeoutClient "Python" "Python" "science" (Exc.wikipediaException "timeout")).2.2 rfl⟩

/-! ## Claim C2 -/

/-- C2: evaluation of `main'` at the exact scenario of
`test_wiki.py::test_main_unsupported_language` (argv `-n Test -l xyz`, the
client rejecting the language by raising
`WikipediaException("Unsupported language")`).  Because `main` catches only
`ValueError`, the exception propagates: only one language-selection call is
made, no fallback call with `"en"` happens, and nothing is printed —
contradicting the claim and the repository's own test, which demand two
calls (`"xyz"` then `"en"`) and the unsupported-language message. -/
theorem c2_code_bug_eval :
    main' unsupportedLangClient { lang := "xyz", full := false, search := none, name := some "Test" }
      = { calls := [Call.setLang "xyz"], output := [],
          raised := some (Exc.wikipediaException "Unsupported language") } := by
  rfl

/-! ## Claim C4 -/

/-- C4 counterexample: search for query `"zzz"` failing with underlying
message `"bar"` prints only the failure template with the message; the
query string does not occur anywhere in the printed output. -/
theorem c4_counterexample :
    (get_results failingSearchClient "zzz").output
      = ["\nAn error occurred during search: bar"]
    ∧ strContains "\nAn error occurred during search: bar" "zzz" = false :=
  ⟨rfl, by decide⟩

/-- C4 (amended): for every query on which the client's search raises a
`WikipediaException`, the printed output is exactly the failure template
containing the underlying message; the query string itself is not part of
the template (it appears only if it happens to occur inside the message). -/
theorem c4_amended (client : Client) (q : String) (e : Exc) :
    client.search q 5 = .error e → e.isWikipediaException = true →
    (get_results client q).output = ["\nAn error occurred during search: " ++ e.message] := by
  intro h hw
  unfold get_results
  rw [h]
  simp [hw]

/-- Witness for C4 (amended) at `failingSearchClient` and query `"zzz"`. -/
theorem c4_amended_witness :
    (failingSearchClient.search "zzz" 5 = .error (Exc.wikipediaException "bar"))
    ∧ (Exc.wikipediaException "bar").isWikipediaException = true
    ∧ (get_results failingSearchClient "zzz").output
        = ["\nAn error occurred during search: " ++ (Exc.wikipediaException "bar").message] :=
  ⟨rfl, rfl, c4_amended failingSearchClient "zzz" (Exc.wikipediaException "bar") rfl rfl⟩

/-! ## Claim C5 -/

/-- C5: whenever the client's lookup raises the ambiguous-title condition
with a list of candidate titles, both `get_summary` and `get_full_content`
print a second line holding the candidates truncated to the first five and
joined by `", "`; the printed list is a prefix of the candidates of length
at most 5, regardless of how many candidates there are. -/
theorem c5_disambiguation_truncation (client : Client) (name topic : String)
    (options : List String) (m m2 : String) :
    (client.summary name 5 = .error (.disambiguationError options m) →
      (get_summary client name).output =
        ["\nDisambiguation: '" ++ name ++ "' may refer to multiple topics. Please be more specific.",
         "Did you mean one of these? " ++ String.intercalate ", " (options.take 5)]
      ∧ (options.take 5).length ≤ 5 ∧ options.take 5 <+: options)
    ∧ (client.page topic = .error (.disambiguationError options m2) →
      (get_full_content client topic).output =
        ["\nDisambiguation: '" ++ topic ++ "' may refer to multiple topics. Please be more specific.",
         "Did you mean one of these? " ++ String.intercalate ", " (options.take 5)]
      ∧ (options.take 5).length ≤ 5 ∧ options.take 5 <+: options) := by
  constructor
  · intro h
    unfold get_summary
    rw [h]
    refine ⟨rfl, ?_, List.take_prefix 5 options⟩
    simp [List.length_take]
  · intro h
    unfold get_full_content
    rw [h]
    refine ⟨rfl, ?_, List.take_prefix 5 options⟩
    simp [List.length_take]

/-- Witness for C5 at `disambClient`, whose lookups are ambiguous with the
seven candidates `A`–`G`: only `A, B, C, D, E` is printed. -/
theorem c5_witness :
    (disambClient.summary "Mercury" 5
      = .error (.disambiguationError ["A", "B", "C", "D", "E", "F", "G"] "dis"))
    ∧ (disambClient.page "Mercury"
      = .error (.disambiguationError ["A", "B", "C", "D", "E", "F", "G"] "dis"))
    ∧ ((get_summary disambClient "Mercury").output =
        ["\nDisambiguation: 'Mercury' may refer to multiple topics. Please be more specific.",
         "Did you mean one of these? " ++
           String.intercalate ", " ((["A", "B", "C", "D", "E", "F", "G"] : List String).take 5)]
      ∧ ((["A", "B", "C", "D", "E", "F", "G"] : List String).take 5).length ≤ 5
      ∧ (["A", "B", "C", "D", "E", "F", "G"] : List String).take 5
          <+: ["A", "B", "C", "D", "E", "F", "G"])
    ∧ ((get_full_content disambClient "Mercury").output =
        ["\nDisambiguation: 'Mercury' may refer to multiple topics. Please be more specific.",
         "Did you mean one of these? " ++
           String.intercalate ", " ((["A", "B", "C", "D", "E", "F", "G"] : List String).take 5)]
      ∧ ((["A", "B", "C", "D", "E", "F", "G"] : List String).take 5).length ≤ 5
      ∧ (["A", "B", "C", "D", "E", "F", "G"] : List String).take 5
          <+: ["A", "B", "C", "D", "E", "F", "G"]) :=
  ⟨rfl, rfl,
   (c5_disambiguation_truncation disambClient "Mercury" "Mercury"
     ["A", "B", "C", "D", "E", "F", "G"] "dis" "dis").1 rfl,
   (c5_disambiguation_truncation disambClient "Mercury" "Mercury"
     ["A", "B", "C", "D", "E", "F", "G"] "dis" "dis").2 rfl⟩

/-! ## Claim C6 -/

/-- C6: every summary fetch calls the client's summary retrieval with a
sentence limit of exactly 5 (hence at most 5), and on success the printed
output is the header containing the capitalized topic followed by the full
summary text; in particular the topic `"Python"` capitalizes to `"Python"`,
so its header reads `Wikipedia Summary for: Python`. -/
theorem c6_summary_header (client : Client) (name text : String) :
    client.summary name 5 = .ok text →
    (get_summary client name).calls = [Call.summary name 5]
    ∧ (get_summary client name).output =
        ["\n" ++ eqLine,
         "  ✨ Wikipedia Summary for: " ++ pyCapitalize name ++ " ✨",
         eqLine ++ "\n",
         text,
         ""]
    ∧ "  ✨ Wikipedia Summary for: " ++ pyCapitalize "Python" ++ " ✨"
        = "  ✨ Wikipedia Summary for: Python ✨" := by
  intro h
  unfold get_summary
  rw [h]
  exact ⟨rfl, rfl, by decide⟩

/-- Witness for C6 at `plainClient` and topic `"Python"`. -/
theorem c6_witness :
    (plainClient.summary "Python" 5 = .ok "Python is a programming language.")
    ∧ (get_summary plainClient "Python").calls = [Call.summary "Python" 5]
    ∧ (get_summary plainClient "Python").output =
        ["\n" ++ eqLine,
         "  ✨ Wikipedia Summary for: " ++ pyCapitalize "Python" ++ " ✨",
         eqLine ++ "\n",
         "Python is a programming language.",
         ""]
    ∧ "  ✨ Wikipedia Summary for: " ++ pyCapitalize "Python" ++ " ✨"
        = "  ✨ Wikipedia Summary for: Python ✨" :=
  ⟨rfl, (c6_summary_header plainClient "Python" "Python is a programming language." rfl).1,
   (c6_summary_header plainClient "Python" "Python is a programming language." rfl).2.1,
   (c6_summary_header plainClient "Python" "Python is a programming language." rfl).2.2⟩

/-! ## Claim C7 -/

/-- C7: whenever the client's search returns the empty list, the printed
output is exactly the empty-results line for the query, and it can never
equal the search-failure line, whatever the failure message would be. -/
theorem c7_empty_results (client : Client) (q : String) :
    client.search q 5 = .ok [] →
    (get_results client q).output = ["\nNo results found for '" ++ q ++ "'."]
    ∧ ∀ m : String,
        (get_results client q).output ≠ ["\nAn error occurred during search: " ++ m] := by
  intro h
  have hout : (get_results client q).output = ["\nNo results found for '" ++ q ++ "'."] := by
    unfold get_results
    rw [h]
    simp
  refine ⟨hout, ?_⟩
  intro m hcontra
  rw [hout] at hcontra
  simp only [List.cons.injEq, and_true] at hcontra
  have h2 := congrArg String.data hcontra
  simp [String.data_append] at h2

/-- Witness for C7 at `disambClient` (whose search returns `[]`) and query
`"science"`. -/
theorem c7_witness :
    (disambClient.search "science" 5 = .ok [])
    ∧ (get_results disambClient "science").output = ["\nNo results found for 'science'."]
    ∧ (get_results disambClient "science").output
        ≠ ["\nAn error occurred during search: " ++ "boom"] :=
  ⟨rfl, (c7_empty_results disambClient "science" rfl).1,
   (c7_empty_results disambClient "science" rfl).2 "boom"⟩

/-! ## Claim C3 -/

/-- C3 counterexample: invoking the program with `--full` and neither `-n`
nor `-s` does not print the usage-error template and does not return
normally — the argument parser itself rejects the command line with
`SystemExit(2)` before any dispatcher code runs. -/
theorem c3_counterexample :
    program plainClient { lang := none, full := true, search := none, name := none }
      = .error 2 := rfl

/-- C3 (amended): giving `--full` with neither `-n` nor `-s` is rejected by
the argument parser with exit code 2 (no template, no dispatcher code);
the usage-error template followed by the parser's help text, with no fetch
call and a normal return, is printed exactly in the runs where `--full` is
given and the supplied `-n`/`-s` value is falsy (the empty string). -/
theorem c3_amended (client : Client) (c : CmdLine) (a : Args) :
    (c.full = true → c.name = none → c.search = none → program client c = .error 2)
    ∧ (a.full = true → pyTruthy a.name = false → pyTruthy a.search = false →
        client.set_lang a.lang = Except.ok () →
        main' client a = { calls := [Call.setLang a.lang],
                           output := [fullMisuseMsg, parserHelpText],
                           raised := none }) := by
  constructor
  · intro _ hn hs
    unfold program parse_args
    rw [hn, hs]
    rfl
  · intro hf hn hs hl
    unfold main'
    rw [hl]
    unfold dispatch
    rw [hn, hs, hf]
    rfl

/-- Witness for C3 (amended): the command line `--full` alone exits with
code 2, and the parsed namespace `-n '' --full` (with the language call
succeeding) prints the misuse template plus help with no fetch call. -/
theorem c3_witness :
    (({ lang := none, full := true, search := none, name := none } : CmdLine).full = true)
    ∧ program plainClient { lang := none, full := true, search := none, name := none }
        = .error 2
    ∧ (({ lang := "en", full := true, search := none, name := some "" } : Args).full = true)
    ∧ pyTruthy (some "") = false
    ∧ plainClient.set_lang "en" = Except.ok ()
    ∧ main' plainClient { lang := "en", full := true, search := none, name := some "" }
        = { calls := [Call.setLang "en"],
            output := [fullMisuseMsg, parserHelpText],
            raised := none } :=
  ⟨rfl,
   (c3_amended plainClient { lang := none, full := true, search := none, name := none }
     { lang := "en", full := true, search := none, name := some "" }).1 rfl rfl rfl,
   rfl, rfl, rfl,
   (c3_amended plainClient { lang := none, full := true, search := none, name := none }
     { lang := "en", full := true, search := none, name := some "" }).2 rfl rfl rfl rfl⟩

/-! ## Claim C8 -/

/-- C8: in every single invocation of `main'`, the trace of client calls
splits into language-selection calls followed by non-language (fetch)
calls: the language selection, and on a caught failure its `"en"` fallback,
complete before any fetch operation is made on the client. -/
theorem c8_lang_before_fetch (client : Client) (args : Args) :
    ∃ ls fs, (main' client args).calls = ls ++ fs
      ∧ (∀ c ∈ ls, c.isSetLang = true)
      ∧ (∀ c ∈ fs, c.isSetLang = false) := by
  unfold main'
  cases client.set_lang args.lang with
  | ok u =>
      exact ⟨[.setLang args.lang], (dispatch client args).calls, rfl,
        by intro c hc; simp at hc; subst hc; rfl,
        dispatch_no_setLang client args⟩
  | error e =>
      by_cases hv : e.isValueError = true
      · simp only [hv, if_true]
        cases client.set_lang "en" with
        | ok u =>
            exact ⟨[.setLang args.lang, .setLang "en"], (dispatch client args).calls, rfl,
              by intro c hc; simp at hc; rcases hc with rfl | rfl <;> rfl,
              dispatch_no_setLang client args⟩
        | error e2 =>
            exact ⟨[.setLang args.lang, .setLang "en"], [], by simp,
              by intro c hc; simp at hc; rcases hc with rfl | rfl <;> rfl,
              by intro c hc; simp at hc⟩
      · simp only [hv, if_false]
        exact ⟨[.setLang args.lang], [], by simp,
          by intro c hc; simp at hc; subst hc; rfl,
          by intro c hc; simp at hc⟩

/-! ## Claim C9 -/

/-- C9: when both `-s` (with a non-empty query) and `--full` are supplied,
`--full` is silently ignored: the dispatch is exactly `get_results` on the
query, and the whole run is identical to the same run without `--full` —
in particular no error or usage message about `--full` is printed. -/
theorem c9_full_ignored_with_search (client : Client) (args : Args) (q : String) :
    args.name = none → args.search = some q → q ≠ "" → args.full = true →
    dispatch client args = get_results client q
    ∧ main' client args = main' client { args with full := false } := by
  obtain ⟨lang, full, s, n⟩ := args
  intro hn hs hq hf
  simp only at hn hs hf
  subst hn hs hf
  have hd : ∀ b, dispatch client { lang := lang, full := b, search := some q, name := none }
      = get_results client q := by
    intro b
    unfold dispatch
    simp [pyTruthy, hq]
  refine ⟨hd true, ?_⟩
  unfold main'
  cases client.set_lang lang with
  | ok u => simp only [hd]
  | error e =>
      by_cases hv : e.isValueError = true
      · simp only [hv, if_true]
        cases client.set_lang "en" with
        | ok u => simp only [hd]
        | error e2 => rfl
      · simp only [hd]

/-- Witness for C9 at `plainClient` with `-s Science --full`. -/
theorem c9_witness :
    (({ lang := "en", full := true, search := some "Science", name := none } : Args).name = none)
    ∧ (({ lang := "en", full := true, search := some "Science", name := none } : Args).search
        = some "Science")
    ∧ ("Science" : String) ≠ ""
    ∧ (({ lang := "en", full := true, search := some "Science", name := none } : Args).full = true)
    ∧ dispatch plainClient { lang := "en", full := true, search := some "Science", name := none }
        = get_results plainClient "Science"
    ∧ main' plainClient { lang := "en", full := true, search := some "Science", name := none }
        = main' plainClient { lang := "en", full := false, search := some "Science", name := none } :=
  ⟨rfl, rfl, by decide, rfl,
   (c9_full_ignored_with_search plainClient
     { lang := "en", full := true, search := some "Science", name := none } "Science"
     rfl rfl (by decide) rfl).1,
   (c9_full_ignored_with_search plainClient
     { lang := "en", full := true, search := some "Science", name := none } "Science"
     rfl rfl (by decide) rfl).2⟩

/-! ## Claim C10 -/

/-- C10: an invocation parsed with `-n ''` (empty name), no `-s` and no
`--full` makes no fetch call and prints nothing at all beyond the language
selection; and, for any command line the parser accepts, the guard of the
`--full` misuse branch (name falsy, search falsy, `full` set) holds exactly
when `--full` is given together with an empty-string `-n` value (and no
`-s`) or an empty-string `-s` value (and no `-n`). -/
theorem c10_empty_name_silent (client : Client) (args : Args) :
    (args.name = some "" → args.search = none → args.full = false →
      client.set_lang args.lang = Except.ok () →
      main' client args
        = { calls := [Call.setLang args.lang], output := [], raised := none })
    ∧ ∀ (c : CmdLine) (a : Args), parse_args c = .ok a →
        ((pyTruthy a.name = false ∧ pyTruthy a.search = false ∧ a.full = true) ↔
         (a.full = true ∧ (a.name = some "" ∧ a.search = none
                           ∨ a.search = some "" ∧ a.name = none))) := by
  constructor
  · intro hn hs hf hl
    unfold main'
    rw [hl]
    unfold dispatch
    rw [hn, hs, hf]
    rfl
  · intro c a h
    obtain ⟨cl, cf, cs, cn⟩ := c
    cases cs <;> cases cn <;> simp [parse_args] at h <;> subst h <;>
      simp [pyTruthy] <;> tauto

/-- Witness for C10: `-n ''` at `plainClient` runs silently, and the
misuse-guard equivalence instantiated at the parsed command line `-n ''`. -/
theorem c10_witness :
    (({ lang := "en", full := false, search := none, name := some "" } : Args).name = some "")
    ∧ (({ lang := "en", full := false, search := none, name := some "" } : Args).search = none)
    ∧ (({ lang := "en", full := false, search := none, name := some "" } : Args).full = false)
    ∧ plainClient.set_lang "en" = Except.ok ()
    ∧ main' plainClient { lang := "en", full := false, search := none, name := some "" }
        = { calls := [Call.setLang "en"], output := [], raised := none }
    ∧ parse_args { lang := none, full := false, search := none, name := some "" }
        = .ok { lang := "en", full := false, search := none, name := some "" }
    ∧ ((pyTruthy (({ lang := "en", full := false, search := none, name := some "" } : Args).name) = false
        ∧ pyTruthy (({ lang := "en", full := false, search := none, name := some "" } : Args).search) = false
        ∧ ({ lang := "en", full := false, search := none, name := some "" } : Args).full = true) ↔
       (({ lang := "en", full := false, search := none, name := some "" } : Args).full = true
        ∧ (({ lang := "en", full := false, search := none, name := some "" } : Args).name = some ""
             ∧ ({ lang := "en", full := false, search := none, name := some "" } : Args).search = none
           ∨ ({ lang := "en", full := false, search := none, name := some "" } : Args).search = some ""
             ∧ ({ lang := "en", full := false, search := none, name := some "" } : Args).name = none))) :=
  ⟨rfl, rfl, rfl, rfl,
   (c10_empty_name_silent plainClient
     { lang := "en", full := false, search := none, name := some "" }).1 rfl rfl rfl rfl,
   rfl,
   (c10_empty_name_silent plainClient
     { lang := "en", full := false, search := none, name := some "" }).2
     { lang := none, full := false, search := none, name := some "" }
     { lang := "en", full := false, search := none, name := some "" } rfl⟩
